import Mathlib

/-!
Verification of the Digital Dean retrieval-augmented tutoring pipeline.

This file shallowly embeds the orchestration logic of the repository's five
Python scripts (`app.py`, `quizadded.py`, `digital_dean_backend.py`,
`vision_grader.py`, `usecase19.py`) and settles the frozen claims about it.

Python strings are modelled as Lean `String` (a wrapper over `List Char`);
all string primitives the scripts use (`find`, `rfind`, slicing, `replace`,
`strip`, `split`, `upper`, `join`) are re-implemented below over `List Char`
with Python's semantics, so that every definition is executable and
kernel-reducible.  `json.loads` is modelled by an executable recursive-descent
parser over the JSON fragment these scripts exchange (integer numerals; no
floating-point literals occur in any claim).  External capabilities
(embedding, vector store, generative models, the file system) are inputs to
the embedded functions: the store's reply is a list of match contents, the
generative calls are `Except`-valued oracles, and file-system effects are
recorded in an explicit event trace.
-/

set_option maxRecDepth 8192

namespace DigitalDean

/-! ## Python string primitives, modelled over `List Char` -/

/-- The character in a char literal position that the lexer cannot hold. -/
def lbrace : Char := Char.ofNat 123

/-- Closing counterpart of `lbrace`. -/
def rbrace : Char := Char.ofNat 125

/-- Python `s.find(c)`: index of the first occurrence, `none` for `-1`. -/
def pyFindChar (s : String) (c : Char) : Option Nat :=
  s.data.findIdx? (· = c)

/-- Python `s.rfind(c)`: index of the last occurrence, `none` for `-1`. -/
def pyRfindChar (s : String) (c : Char) : Option Nat :=
  match s.data.reverse.findIdx? (· = c) with
  | some i => some (s.data.length - 1 - i)
  | none => none

/-- Python `s[a:b]` for non-negative `a`, `b` (clamped, empty when `b ≤ a`). -/
def pySlice (s : String) (a b : Nat) : String :=
  ⟨(s.data.take b).drop a⟩

/-- Does `pat` occur at the head of `s`? (helper for `pyReplace`). -/
def listStartsWith : List Char → List Char → Bool
  | [], _ => true
  | _ :: _, [] => false
  | p :: ps, c :: cs => p = c && listStartsWith ps cs

/-- One fuel-indexed pass of Python `str.replace`: left-to-right,
non-overlapping occurrences of `old` replaced by `new`. -/
def pyReplaceAux (old new : List Char) : Nat → List Char → List Char
  | 0, s => s
  | _ + 1, [] => []
  | fuel + 1, c :: cs =>
    if listStartsWith old (c :: cs) then
      new ++ pyReplaceAux old new fuel ((c :: cs).drop old.length)
    else
      c :: pyReplaceAux old new fuel cs

/-- Python `s.replace(old, new)` for non-empty `old`. -/
def pyReplace (s old new : String) : String :=
  ⟨pyReplaceAux old.data new.data s.data.length s.data⟩

/-- Drop leading whitespace (helper for `pyStrip`). -/
def dropLeadingWs : List Char → List Char
  | [] => []
  | c :: cs => if c.isWhitespace then dropLeadingWs cs else c :: cs

/-- Python `s.strip()`: remove leading and trailing whitespace. -/
def pyStrip (s : String) : String :=
  ⟨dropLeadingWs ((dropLeadingWs s.data.reverse).reverse)⟩

/-- Characters strictly before the first occurrence of `c`
(Python `s.split(c)[0]`, which is the whole string when `c` is absent). -/
def takeUntilChar (c : Char) : List Char → List Char
  | [] => []
  | d :: ds => if d = c then [] else d :: takeUntilChar c ds

/-- Python `s.upper()` (ASCII, which is all these scripts compare). -/
def pyUpper (s : String) : String :=
  ⟨s.data.map Char.toUpper⟩

/-- Python `sep.join(xs)`. -/
def pyJoin (sep : String) : List String → String
  | [] => ""
  | [x] => x
  | x :: y :: rest => x ++ sep ++ pyJoin sep (y :: rest)

/-! ## Model of `json.loads`

An executable recursive-descent parser for the JSON fragment the scripts
exchange.  Numbers are integer numerals (no script or claim manipulates a
fractional literal); strings support the common escapes.  `json.loads`
requires the whole input (up to surrounding whitespace) to be one JSON value,
which `jsonParse` enforces. -/

/-- A parsed JSON value. -/
inductive Json where
  | null
  | jbool (b : Bool)
  | num (n : Int)
  | str (s : String)
  | arr (elems : List Json)
  | jobj (members : List (String × Json))

/-- Skip JSON whitespace. -/
def jsonSkipWs : List Char → List Char
  | [] => []
  | c :: cs => if c = ' ' ∨ c = '\n' ∨ c = '\t' ∨ c = '\r' then jsonSkipWs cs else c :: cs

/-- Decode a single-character escape inside a JSON string literal. -/
def jsonEscape (c : Char) : Option Char :=
  if c = '"' then some '"'
  else if c = '\\' then some '\\'
  else if c = '/' then some '/'
  else if c = 'n' then some '\n'
  else if c = 't' then some '\t'
  else if c = 'r' then some '\r'
  else if c = 'b' then some (Char.ofNat 8)
  else if c = 'f' then some (Char.ofNat 12)
  else none

/-- Parse the body of a JSON string literal after the opening quote,
returning the decoded content and the input after the closing quote. -/
def jsonStringBody : Nat → List Char → Option (List Char × List Char)
  | 0, _ => none
  | _ + 1, [] => none
  | fuel + 1, c :: cs =>
    if c = '"' then some ([], cs)
    else if c = '\\' then
      match cs with
      | [] => none
      | e :: cs2 =>
        match jsonEscape e with
        | none => none
        | some d =>
          match jsonStringBody fuel cs2 with
          | none => none
          | some (b, r) => some (d :: b, r)
    else
      match jsonStringBody fuel cs with
      | none => none
      | some (b, r) => some (c :: b, r)

/-- Leading decimal digits of the input, paired with the rest. -/
def jsonDigits : List Char → List Char × List Char
  | [] => ([], [])
  | c :: cs =>
    if c.isDigit then
      let (ds, r) := jsonDigits cs
      (c :: ds, r)
    else
      ([], c :: cs)

/-- Numeric value of a digit string. -/
def digitsToNat : List Char → Nat
  | [] => 0
  | ds => ds.foldl (fun acc c => acc * 10 + (c.toNat - 48)) 0

mutual

/-- Parse one JSON value, returning it and the unconsumed rest. -/
def jsonValue : Nat → List Char → Option (Json × List Char)
  | 0, _ => none
  | fuel + 1, input =>
    match jsonSkipWs input with
    | [] => none
    | c :: cs =>
      if c = '"' then
        match jsonStringBody (fuel + 1) cs with
        | none => none
        | some (b, r) => some (.str ⟨b⟩, r)
      else if c = '[' then
        match jsonSkipWs cs with
        | [] => none
        | d :: ds =>
          if d = ']' then some (.arr [], ds)
          else
            match jsonElems fuel (d :: ds) with
            | none => none
            | some (vs, r) => some (.arr vs, r)
      else if c = lbrace then
        match jsonSkipWs cs with
        | [] => none
        | d :: ds =>
          if d = rbrace then some (.jobj [], ds)
          else
            match jsonMembers fuel (d :: ds) with
            | none => none
            | some (ms, r) => some (.jobj ms, r)
      else if c = 't' then
        if listStartsWith ['r', 'u', 'e'] cs then some (.jbool true, cs.drop 3) else none
      else if c = 'f' then
        if listStartsWith ['a', 'l', 's', 'e'] cs then some (.jbool false, cs.drop 4) else none
      else if c = 'n' then
        if listStartsWith ['u', 'l', 'l'] cs then some (.null, cs.drop 3) else none
      else if c = '-' then
        match jsonDigits cs with
        | ([], _) => none
        | (ds, r) => some (.num (-(digitsToNat ds : Int)), r)
      else if c.isDigit then
        match jsonDigits (c :: cs) with
        | ([], _) => none
        | (ds, r) => some (.num (digitsToNat ds : Int), r)
      else none

/-- Parse `value (, value)* ]`, returning the elements and the rest after `]`. -/
def jsonElems : Nat → List Char → Option (List Json × List Char)
  | 0, _ => none
  | fuel + 1, input =>
    match jsonValue fuel input with
    | none => none
    | some (v, rest) =>
      match jsonSkipWs rest with
      | [] => none
      | c :: cs =>
        if c = ',' then
          match jsonElems fuel cs with
          | none => none
          | some (vs, r) => some (v :: vs, r)
        else if c = ']' then some ([v], cs)
        else none

/-- Parse `"key" : value (, "key" : value)* RBRACE`, returning the members. -/
def jsonMembers : Nat → List Char → Option (List (String × Json) × List Char)
  | 0, _ => none
  | fuel + 1, input =>
    match jsonSkipWs input with
    | [] => none
    | c :: cs =>
      if c = '"' then
        match jsonStringBody (fuel + 1) cs with
        | none => none
        | some (k, rest) =>
          match jsonSkipWs rest with
          | [] => none
          | d :: ds =>
            if d = ':' then
              match jsonValue fuel ds with
              | none => none
              | some (v, rest2) =>
                match jsonSkipWs rest2 with
                | [] => none
                | e :: es =>
                  if e = ',' then
                    match jsonMembers fuel es with
                    | none => none
                    | some (ms, r) => some ((⟨k⟩, v) :: ms, r)
                  else if e = rbrace then some ([(⟨k⟩, v)], es)
                  else none
            else none
      else none

end

/-- Model of Python `json.loads`: parse one JSON value and require that only
whitespace remains; `none` models `json.JSONDecodeError`. -/
def jsonParse (s : String) : Option Json :=
  match jsonValue (2 * s.data.length + 2) s.data with
  | some (v, rest) => if jsonSkipWs rest = [] then some v else none
  | none => none

/-! ## RetrievalService -/

/-- `get_syllabus_context` (app.py lines 54-72) after the `match_documents`
RPC has answered: `matches` is the list of `content` fields the vector store
returned, in store order.  Python truthiness (`if not matches`) maps the
empty list to `None`; otherwise the contents are joined with a blank line. -/
def get_syllabus_context (matchContents : List String) : Option String :=
  match matchContents with
  | [] => none
  | ms => some (pyJoin "\n\n" ms)

/-- The `(match_threshold, match_count)` pair a call site passes to the
`match_documents` similarity query. -/
structure RetrievalCall where
  threshold : ℚ
  matchCount : ℕ
deriving DecidableEq

/-- app.py line 126 (`/chat`): `get_syllabus_context(user_question)` with the
helper's default arguments `threshold=0.5, count=4`. -/
def chat_tutor_call : RetrievalCall := ⟨0.5, 4⟩

/-- app.py line 151 (`/quiz`): `get_syllabus_context(topic, threshold=0.4, count=5)`. -/
def generate_quiz_call : RetrievalCall := ⟨0.4, 5⟩

/-- app.py line 191 (`/grade`): `get_syllabus_context(topic)` — no explicit
arguments, so the helper's defaults `threshold=0.5, count=4` apply. -/
def grade_image_call : RetrievalCall := ⟨0.5, 4⟩

/-- digital_dean_backend.py lines 115-122 (`ask_tutor`): direct RPC with
`match_threshold: 0.5, match_count: 4`. -/
def backend_ask_tutor_call : RetrievalCall := ⟨0.5, 4⟩

/-- quizadded.py line 107 (`ask_tutor`): direct RPC with
`match_threshold: 0.5, match_count: 4`. -/
def quizadded_ask_tutor_call : RetrievalCall := ⟨0.5, 4⟩

/-- quizadded.py line 133 (`start_quiz`): direct RPC with
`match_threshold: 0.4, match_count: 5`. -/
def quizadded_start_quiz_call : RetrievalCall := ⟨0.4, 5⟩

/-- vision_grader.py line 57 (`grade_submission`): direct RPC with
`match_threshold: 0.4, match_count: 3`. -/
def vision_grader_call : RetrievalCall := ⟨0.4, 3⟩

/-- The call sites the spec labels "tutoring". -/
def tutoringCalls : List RetrievalCall :=
  [chat_tutor_call, backend_ask_tutor_call, quizadded_ask_tutor_call]

/-- The call sites the spec labels "exam/grading": quiz generation in both
front ends, the HTTP grading endpoint, and the standalone vision grader. -/
def examGradingCalls : List RetrievalCall :=
  [generate_quiz_call, quizadded_start_quiz_call, grade_image_call, vision_grader_call]

/-! ## IngestionPipeline batching -/

/-- Python `range(start, stop, step)` for a positive step. -/
def pyRange (start stop step : Nat) : List Nat :=
  if _h : 0 < step ∧ start < stop then start :: pyRange (start + step) stop step else []
termination_by stop - start
decreasing_by omega

/-- The sequence of batch writes the upload loop issues
(app.py lines 106-110, likewise quizadded.py lines 83-91 and
digital_dean_backend.py lines 87-95): `for i in range(0, len(chunks),
batch_size): batch = chunks[i : i + batch_size]`.  Python's slice
`chunks[i : i + B]` is `(chunks.drop i).take B`. -/
def uploadBatches (chunks : List α) (batchSize : Nat) : List (List α) :=
  (pyRange 0 chunks.length batchSize).map fun i => (chunks.drop i).take batchSize

/-! ## ResponseParser: the three JSON extractors -/

/-- The code-fence fallback both `start_quiz` (quizadded.py line 172) and
`grade_image` (app.py line 222) use:
`raw.replace("```json", "").replace("```", "").strip()`. -/
def stripFences (raw : String) : String :=
  pyStrip (pyReplace (pyReplace raw "```json" "") "```" "")

/-- How the interactive quiz extractor fails. -/
inductive QuizExtractErr where
  /-- `ValueError("No JSON brackets found in response.")` — not caught by the
  inner `except json.JSONDecodeError`, so it aborts the extraction without
  attempting the code-fence fallback. -/
  | noBrackets (raw : String)
  /-- `json.JSONDecodeError` escaping from the fallback parse. -/
  | decodeFail (raw : String)

/-- The robust extractor in `start_quiz` (quizadded.py lines 158-174):
slice between the first `[` and the last `]` and parse; on missing brackets
raise `ValueError` (which the inner `except json.JSONDecodeError` does not
catch); on a JSON decode failure of the slice, strip code fences from the
raw text and parse that. -/
def start_quiz_extract (raw : String) : Except QuizExtractErr Json :=
  match pyFindChar raw '[', pyRfindChar raw ']' with
  | some si, some ei =>
    match jsonParse (pySlice raw si (ei + 1)) with
    | some v => .ok v
    | none =>
      match jsonParse (stripFences raw) with
      | some v => .ok v
      | none => .error (.decodeFail raw)
  | _, _ => .error (.noBrackets raw)

/-- The extractor in `generate_quiz` (app.py lines 164-167):
`clean_json = raw_text[start_index:end_index] if start_index != -1 else
raw_text`, followed by a single `json.loads` with no fallback.
`end_index = raw_text.rfind(']') + 1` is `0` when `]` is absent. -/
def generate_quiz_extract (raw : String) : Option Json :=
  let endIndex : Nat :=
    match pyRfindChar raw ']' with
    | some ei => ei + 1
    | none => 0
  let cleanJson : String :=
    match pyFindChar raw '[' with
    | some si => pySlice raw si endIndex
    | none => raw
  jsonParse cleanJson

/-- The cleaning step in `grade_image` (app.py lines 216-222): slice between
the first opening brace and the last closing brace when both are present,
otherwise strip code fences. -/
def grade_clean_json (raw : String) : String :=
  match pyFindChar raw lbrace, pyRfindChar raw rbrace with
  | some si, some ei => pySlice raw si (ei + 1)
  | _, _ => stripFences raw

/-- "Modelled from the spec": the extraction chain exactly as the claim and
§4.5 of the spec describe it, for comparison with `start_quiz_extract` —
(1) parse the slice between the first opening bracket and the last closing
bracket; (2) whenever that slice fails to parse, including when no brackets
are present at all, strip code-fence markers and parse the remainder;
(3) fail (`MalformedOutput`) exactly when both attempts fail. -/
def claimed_extract (raw : String) : Except QuizExtractErr Json :=
  let firstAttempt : Option Json :=
    match pyFindChar raw '[', pyRfindChar raw ']' with
    | some si, some ei => jsonParse (pySlice raw si (ei + 1))
    | _, _ => none
  match firstAttempt with
  | some v => .ok v
  | none =>
    match jsonParse (stripFences raw) with
    | some v => .ok v
    | none => .error (.decodeFail raw)

/-! ## PromptBuilder: the assembled prompts

The f-strings are embedded verbatim (newlines and indentation as in the
source; literal braces and apostrophes written with hex escapes). -/

/-- Substring occurrence, as a proposition. -/
def containsStr (s pat : String) : Prop :=
  ∃ l r, s.data = l ++ pat.data ++ r

/-- Executable substring test. -/
def listHasSub (pat : List Char) : List Char → Bool
  | [] => decide (pat = [])
  | c :: cs => listStartsWith pat (c :: cs) || listHasSub pat cs

/-- Executable substring test on strings. -/
def strHasSub (s pat : String) : Bool :=
  listHasSub pat.data s.data

/-- The fallback text `chat_tutor` (app.py line 131) interpolates when the
context is falsy. -/
def chat_tutor_no_context_msg : String := "No specific context found in syllabus."

/-- Text before the context slot of the `/chat` prompt (app.py lines 128-131). -/
def chat_tutor_pre : String :=
  "\n    You are a strict Digital Dean.\n    Context from Syllabus:\n    "

/-- Text after the context slot of the `/chat` prompt (app.py lines 132-139). -/
def chat_tutor_post (userQuestion : String) : String :=
  "\n    \n    Student Question: " ++ userQuestion ++
    "\n    \n    Instructions:\n    - Answer based on the syllabus context first.\n    - If context is missing, use general knowledge but warn the student.\n    - Keep it concise and academic.\n    "

/-- The `/chat` prompt (app.py lines 128-139):
`{context if context else "No specific context found in syllabus."}` —
Python truthiness, so both `None` and the empty string select the fallback. -/
def chat_tutor_prompt (context : Option String) (userQuestion : String) : String :=
  chat_tutor_pre ++
    (match context with
     | some c => if c = "" then chat_tutor_no_context_msg else c
     | none => chat_tutor_no_context_msg) ++
    chat_tutor_post userQuestion

/-- The fallback text `ask_tutor` (digital_dean_backend.py line 127) binds to
`context` when the match set is empty. -/
def backend_no_context_msg : String := "No relevant info found in syllabus."

/-- Text before the context slot of the backend tutor prompt
(digital_dean_backend.py lines 132-135). -/
def backend_ask_tutor_pre : String :=
  "\n        You are a strict but helpful Digital Dean.\n        \n        Context from Syllabus:\n        "

/-- Text after the context slot of the backend tutor prompt
(digital_dean_backend.py lines 136-144). -/
def backend_ask_tutor_post (question : String) : String :=
  "\n        \n        Student Question: " ++ question ++
    "\n        \n        Instructions:\n        1. Answer based on the syllabus context first.\n        2. If the info is missing, use general knowledge but warn the student (\"This isn\x27t in your syllabus, but...\").\n        3. Format nicely with Markdown.\n        "

/-- The backend tutor prompt (digital_dean_backend.py lines 124-144):
`context` is the no-context message when the match set is empty, otherwise
the blank-line join of the match contents. -/
def backend_ask_tutor_prompt (matchContents : List String) (question : String) : String :=
  backend_ask_tutor_pre ++
    (match matchContents with
     | [] => backend_no_context_msg
     | ms => pyJoin "\n\n" ms) ++
    backend_ask_tutor_post question

/-- The fallback text `ask_tutor` (quizadded.py line 110) uses when the
match set is empty. -/
def quizadded_tutor_no_context_msg : String := "No relevant info found."

/-- Text before the context slot of the quizadded tutor prompt
(quizadded.py lines 112-114). -/
def quizadded_ask_tutor_pre : String :=
  "\n        You are a strict Digital Dean.\n        Context: "

/-- Text after the context slot of the quizadded tutor prompt
(quizadded.py lines 114-117). -/
def quizadded_ask_tutor_post (question : String) : String :=
  "\n        Question: " ++ question ++
    "\n        Answer based on context. If missing, use general knowledge but warn the student.\n        "

/-- The quizadded tutor prompt (quizadded.py lines 110-117):
`"\n\n".join(...) if matches else "No relevant info found."`. -/
def quizadded_ask_tutor_prompt (matchContents : List String) (question : String) : String :=
  quizadded_ask_tutor_pre ++
    (match matchContents with
     | [] => quizadded_tutor_no_context_msg
     | ms => pyJoin "\n\n" ms) ++
    quizadded_ask_tutor_post question

/-- Text before the context slot of the quiz-generation prompt
(quizadded.py lines 137-139). -/
def start_quiz_prompt_pre : String :=
  "\n        You are a ruthless exam setter.\n        Based on this context: "

/-- Text after the context slot of the quiz-generation prompt
(quizadded.py lines 139-152). -/
def start_quiz_prompt_post (topic : String) : String :=
  "\n        \n        Create 5 HARD multiple-choice questions about \x27" ++ topic ++
    "\x27.\n        \n        CRITICAL: Output ONLY valid JSON array. No text before or after.\n        Format:\n        [\n            \x7b\n                \"question\": \"The actual question?\",\n                \"options\": [\"A) Option 1\", \"B) Option 2\", \"C) Option 3\", \"D) Option 4\"],\n                \"answer\": \"A\"\n            \x7d\n        ]\n        "

/-- The quiz-generation prompt (quizadded.py lines 131-152):
`context = "\n\n".join([m['content'] for m in response.data])` is
interpolated directly — there is no empty-match branch, so an empty match
set puts the empty string into the context slot. -/
def start_quiz_json_prompt (matchContents : List String) (topic : String) : String :=
  start_quiz_prompt_pre ++ pyJoin "\n\n" matchContents ++ start_quiz_prompt_post topic

/-! ## QuizSession: the exam loop -/

/-- A parsed quiz question: the `question`, `options` and `answer` fields of
one element of the model's JSON array. -/
structure PyQuizQuestion where
  question : String
  options : List String
  answer : String

/-- `correct_letter = q['answer'].split(")")[0].strip().upper()`
(quizadded.py line 186): everything before the first `)` (the whole string
when `)` is absent), stripped and uppercased. -/
def correct_letter (answer : String) : String :=
  pyUpper (pyStrip ⟨takeUntilChar ')' answer.data⟩)

/-- The exam loop's score (quizadded.py lines 177-192): the i-th submission
answers the i-th question; `user_ans` is the reply uppercased (line 183);
the score is incremented exactly when it equals `correct_letter`. -/
def examScore : List PyQuizQuestion → List String → Nat
  | q :: qs, a :: subs =>
    (if pyUpper a = correct_letter q.answer then 1 else 0) + examScore qs subs
  | _, _ => 0

/-- The final grade (quizadded.py line 195): `percentage = (score / 5) * 100`
— Python true division, and the divisor is the literal `5`. -/
def final_percentage (score : Nat) : ℚ :=
  (score : ℚ) / 5 * 100

/-- "Modelled from the spec": the per-question validation the claim says
happens before the exam starts — a non-empty prompt, at least 2 options, and
an answer label matching the leading letter of one of the options
(compared through the same letter extraction, case-insensitively). -/
def claimValidQuestion (q : PyQuizQuestion) : Bool :=
  decide (q.question ≠ "") && decide (2 ≤ q.options.length) &&
    q.options.any fun opt => decide (pyUpper (pySlice opt 0 1) = correct_letter q.answer)

/-! ## GradingWorkflow: resource lifecycle of `grade_image` -/

/-- File-system and image-handle events of one `/grade` request. -/
inductive GEvent where
  | saveFile
  | openImage
  | closeImage
  | deleteFile
deriving DecidableEq

/-- Resource state of one `/grade` request plus the trace so far. -/
structure GState where
  fileExists : Bool
  imgOpen : Bool
  events : List GEvent

/-- Append an event to the trace. -/
def emitEv (s : GState) (e : GEvent) : GState :=
  { s with events := s.events ++ [e] }

/-- `file.save(filepath)` (app.py line 187). -/
def doSave (s : GState) : GState :=
  { emitEv s .saveFile with fileExists := true }

/-- `os.remove(filepath)` (app.py lines 195, 226, 237). -/
def doRemove (s : GState) : GState :=
  { emitEv s .deleteFile with fileExists := false }

/-- `img = PIL.Image.open(filepath)` (app.py line 199). -/
def doOpen (s : GState) : GState :=
  { emitEv s .openImage with imgOpen := true }

/-- `img.close()` (app.py lines 211, 234). -/
def doClose (s : GState) : GState :=
  { emitEv s .closeImage with imgOpen := false }

/-- The `except` handler of `grade_image` (app.py lines 230-239):
`if os.path.exists(filepath): try: img.close() except: pass;
os.remove(filepath)`.  The inner `try` absorbs the `NameError` when `img`
was never bound, and PIL's `close` on an already-closed image has no effect,
so the handler's effect is a close exactly when a handle is currently open,
followed by the removal — and nothing when the file is already gone. -/
def gradeExceptHandler (s : GState) : GState :=
  if s.fileExists then doRemove (if s.imgOpen then doClose s else s) else s

/-- The typed outcome of one `/grade` request. -/
inductive GradeOutcome where
  | success (result : Json)
  | noSyllabusContext
  | imageUnreadable
  | visionFailure
  | malformedOutput (raw : String)

/-- Python truthiness of `syllabus_context` (app.py line 192): falsy when
`None` or the empty string. -/
def pyTruthy (o : Option String) : Bool :=
  match o with
  | none => false
  | some c => decide (c ≠ "")

/-- `grade_image` (app.py lines 172-239) from the point the upload has been
saved (line 187).  The oracles stand for the external calls: `ctx` is what
`get_syllabus_context(topic)` returns (that helper catches its own
exceptions and returns `None`, so it never throws); `openOk` is whether
`PIL.Image.open(filepath)` succeeds; `visionResult` is the vision model's
reply text, or the exception `generate_content` raised.  The returned trace
lists the file-system and handle events in program order. -/
def grade_image (ctx : Option String) (openOk : Bool)
    (visionResult : Except Unit String) : GradeOutcome × List GEvent :=
  let s0 := doSave ⟨false, false, []⟩
  if pyTruthy ctx then
    if openOk then
      let s1 := doOpen s0
      match visionResult with
      | .error _ =>
        -- `generate_content` raised before `img.close()` was reached
        let s2 := gradeExceptHandler s1
        (.visionFailure, s2.events)
      | .ok rawText =>
        let s2 := doClose s1                         -- line 211
        let cleanJson := grade_clean_json rawText    -- lines 215-222
        let s3 := if s2.fileExists then doRemove s2 else s2  -- lines 225-226
        match jsonParse cleanJson with
        | some v => (.success v, s3.events)          -- line 228
        | none =>
          -- `json.loads` raised after the removal; the handler's
          -- `os.path.exists` check is now false, so it does nothing
          let s4 := gradeExceptHandler s3
          (.malformedOutput rawText, s4.events)
    else
      -- `PIL.Image.open` raised; `img` was never bound
      let s1 := gradeExceptHandler s0
      (.imageUnreadable, s1.events)
  else
    -- lines 192-196: clean up even if we fail here, then the 404 reply
    let s1 := if s0.fileExists then doRemove s0 else s0
    (.noSyllabusContext, s1.events)

/-- Scan a trace and check that no `deleteFile` happens while the image
handle is open. -/
def deleteOnlyWhenClosed : Bool → List GEvent → Bool
  | _, [] => true
  | isOpen, e :: rest =>
    match e with
    | .openImage => deleteOnlyWhenClosed true rest
    | .closeImage => deleteOnlyWhenClosed false rest
    | .deleteFile => !isOpen && deleteOnlyWhenClosed isOpen rest
    | .saveFile => deleteOnlyWhenClosed isOpen rest

/-! ## `upload_syllabus`: document-upload file lifecycle -/

/-- The HTTP outcome of one `/upload` request. -/
inductive UploadOutcome where
  | success (chunkCount : Nat)
  | failure
deriving DecidableEq

/-- Does the outcome report success? -/
def UploadOutcome.isSuccess : UploadOutcome → Bool
  | .success _ => true
  | .failure => false

/-- `upload_syllabus` (app.py lines 90-117) from the point the upload has
been saved (line 93).  `loadResult` is the chunk list produced by
`PyMuPDFLoader(...).load()` plus `split_documents`, or the exception either
step raised; `writeOk b` is whether `vector_store.add_documents(b)` succeeds
for batch `b` (the loop aborts at the first failing batch).  Returns the
HTTP outcome and whether the saved file is still on disk afterwards: only
the success path reaches `os.remove(filepath)` (line 113); the `except`
branch (lines 116-117) returns the error with no cleanup. -/
def upload_syllabus (loadResult : Except Unit (List String))
    (writeOk : List String → Bool) : UploadOutcome × Bool :=
  match loadResult with
  | .error _ => (.failure, true)
  | .ok chunks =>
    if (uploadBatches chunks 50).all writeOk then
      (.success chunks.length, false)
    else
      (.failure, true)

/-- Does the grading outcome report a successfully parsed result? -/
def GradeOutcome.isSuccess : GradeOutcome → Bool
  | .success _ => true
  | _ => false

/-! ## Concrete fixtures used by counterexamples and witnesses -/

/-- The five demonstration questions of the spec's test property, with
correct answers `A, B, C, D, A`. -/
def demoQuestions : List PyQuizQuestion :=
  [⟨"q1", ["A) 1", "B) 2", "C) 3", "D) 4"], "A"⟩,
   ⟨"q2", ["A) 1", "B) 2", "C) 3", "D) 4"], "B"⟩,
   ⟨"q3", ["A) 1", "B) 2", "C) 3", "D) 4"], "C"⟩,
   ⟨"q4", ["A) 1", "B) 2", "C) 3", "D) 4"], "D"⟩,
   ⟨"q5", ["A) 1", "B) 2", "C) 3", "D) 4"], "A"⟩]

/-- The spec's demonstration submissions `A, B, C, C, A` (four correct). -/
def demoSubmissions : List String := ["A", "B", "C", "C", "A"]

/-- A parsed question violating every condition of the claimed validation
step: a single option and an answer label matching no option's leading
letter. -/
def invalidQuestion : PyQuizQuestion := ⟨"Q?", ["A) only option"], "Z"⟩

/-- A raw reply with no brackets whose fence-stripped remainder is valid
JSON. -/
def fencedNumeral : String := "```json\n42\n```"

/-! ## Theorems -/

/-- C1: for every execution of `grade_image` after the image file has been
saved, the file is deleted exactly once — on the success, context-not-found,
unreadable-image, vision-failure and parse-failure exit paths alike; never
zero times and never twice. -/
theorem grade_image_deletes_exactly_once (ctx : Option String) (openOk : Bool)
    (visionResult : Except Unit String) :
    ((grade_image ctx openOk visionResult).2.count GEvent.deleteFile) = 1 := by
  rcases ctx with _ | c
  · rfl
  · by_cases hc : c = ""
    · subst hc; rfl
    · cases openOk
      · simp [grade_image, pyTruthy, hc, gradeExceptHandler, doSave, doRemove, doOpen,
          doClose, emitEv, List.count_cons]
      · rcases visionResult with _ | raw
        · simp [grade_image, pyTruthy, hc, gradeExceptHandler, doSave, doRemove, doOpen,
            doClose, emitEv, List.count_cons]
        · rcases h : jsonParse (grade_clean_json raw) with _ | v <;>
            simp [grade_image, pyTruthy, hc, gradeExceptHandler, doSave, doRemove, doOpen,
              doClose, emitEv, h, List.count_cons]

/-- C2: in every execution of `grade_image`, the file is never deleted while
the image handle is open, and on the success path and on the path where the
vision call throws after the image was opened, the handle is closed exactly
once, the close precedes the deletion, and the file is deleted exactly
once. -/
theorem grade_image_close_before_delete (ctx : Option String) (openOk : Bool)
    (visionResult : Except Unit String) :
    deleteOnlyWhenClosed false (grade_image ctx openOk visionResult).2 = true ∧
    ((grade_image ctx openOk visionResult).1.isSuccess = true ∨
        (grade_image ctx openOk visionResult).1 = .visionFailure →
      (grade_image ctx openOk visionResult).2.count GEvent.closeImage = 1 ∧
      ((grade_image ctx openOk visionResult).2.takeWhile
          (fun e => decide (e ≠ GEvent.deleteFile))).count GEvent.closeImage = 1 ∧
      (grade_image ctx openOk visionResult).2.count GEvent.deleteFile = 1) := by
  rcases ctx with _ | c
  · exact ⟨rfl, by intro h; rcases h with h | h <;> simp [grade_image, pyTruthy,
      GradeOutcome.isSuccess] at h⟩
  · by_cases hc : c = ""
    · subst hc
      exact ⟨rfl, by intro h; rcases h with h | h <;> simp [grade_image, pyTruthy,
        GradeOutcome.isSuccess] at h⟩
    · cases openOk
      · refine ⟨?_, ?_⟩
        · simp [grade_image, pyTruthy, hc, gradeExceptHandler, doSave, doRemove, doOpen,
            doClose, emitEv, deleteOnlyWhenClosed]
        · intro h
          rcases h with h | h <;> simp [grade_image, pyTruthy, hc,
            gradeExceptHandler, doSave, doRemove, doOpen, doClose, emitEv,
            GradeOutcome.isSuccess] at h
      · rcases visionResult with _ | raw
        · refine ⟨?_, fun _ => ?_⟩ <;>
            simp [grade_image, pyTruthy, hc, gradeExceptHandler, doSave, doRemove, doOpen,
              doClose, emitEv, deleteOnlyWhenClosed, List.count_cons, List.takeWhile]
        · rcases h : jsonParse (grade_clean_json raw) with _ | v <;>
            refine ⟨?_, fun _ => ?_⟩ <;>
              simp [grade_image, pyTruthy, hc, gradeExceptHandler, doSave, doRemove, doOpen,
                doClose, emitEv, deleteOnlyWhenClosed, h, List.count_cons, List.takeWhile]

/-- Witness for `grade_image_close_before_delete`: a concrete successful
request — the vision reply parses, the trace is save, open, close, delete,
with the single close before the single delete. -/
theorem grade_image_close_before_delete_witness :
    deleteOnlyWhenClosed false
        (grade_image (some "ctx") true (.ok "\x7b\"score\": \"8/10\", \"feedback\": \"ok\"\x7d")).2 = true ∧
    ((grade_image (some "ctx") true (.ok "\x7b\"score\": \"8/10\", \"feedback\": \"ok\"\x7d")).2.count
        GEvent.closeImage = 1 ∧
      ((grade_image (some "ctx") true (.ok "\x7b\"score\": \"8/10\", \"feedback\": \"ok\"\x7d")).2.takeWhile
          (fun e => decide (e ≠ GEvent.deleteFile))).count GEvent.closeImage = 1 ∧
      (grade_image (some "ctx") true (.ok "\x7b\"score\": \"8/10\", \"feedback\": \"ok\"\x7d")).2.count
        GEvent.deleteFile = 1) :=
  ⟨(grade_image_close_before_delete (some "ctx") true _).1,
    (grade_image_close_before_delete (some "ctx") true _).2 (Or.inl rfl)⟩

/-- C10: in `upload_syllabus` the temporarily saved PDF is deleted exactly
on the success path; on any failure (loading/chunking raised, or a batch
write raised) the error is returned and the saved file remains on disk. -/
theorem upload_cleanup_only_on_success (loadResult : Except Unit (List String))
    (writeOk : List String → Bool) :
    (upload_syllabus loadResult writeOk).2 =
      !(upload_syllabus loadResult writeOk).1.isSuccess := by
  rcases loadResult with _ | chunks
  · rfl
  · by_cases h : (uploadBatches chunks 50).all writeOk <;>
      simp [upload_syllabus, h, UploadOutcome.isSuccess]

/-- The exam score counts exactly the paired submissions whose uppercased
reply equals the extracted correct letter. -/
theorem examScore_eq_countP (qs : List PyQuizQuestion) (subs : List String) :
    examScore qs subs =
      (qs.zip subs).countP fun p => decide (pyUpper p.2 = correct_letter p.1.answer) := by
  induction qs generalizing subs with
  | nil => simp [examScore]
  | cons q qs ih =>
    cases subs with
    | nil => simp [examScore]
    | cons a subs =>
      by_cases h : pyUpper a = correct_letter q.answer <;>
        simp [examScore, ih, List.countP_cons, h, Nat.add_comm]

/-- C6 (amended): each submission is judged by comparing the uppercased
user label with the substring of the stored answer before the first `)`
(stripped and uppercased); the final percentage is `score / 5 * 100` with
the literal divisor 5 — which equals `correct / N * 100` exactly when the
quiz has `N = 5` questions — and the spec's 5-question instance scores
80%. -/
theorem exam_scoring_amended (qs : List PyQuizQuestion) (subs : List String)
    (h5 : qs.length = 5) :
    examScore qs subs =
      ((qs.zip subs).countP fun p => decide (pyUpper p.2 = correct_letter p.1.answer)) ∧
    final_percentage (examScore qs subs) =
      (examScore qs subs : ℚ) / (qs.length : ℚ) * 100 ∧
    examScore demoQuestions demoSubmissions = 4 ∧
    final_percentage (examScore demoQuestions demoSubmissions) = 80 := by
  have hdemo : examScore demoQuestions demoSubmissions = 4 := rfl
  refine ⟨examScore_eq_countP qs subs, ?_, hdemo, by rw [hdemo]; norm_num [final_percentage]⟩
  rw [final_percentage, h5]
  norm_num

/-- Witness for `exam_scoring_amended`: the spec's concrete 5-question
instance, where the reported grade is 80%. -/
theorem exam_scoring_amended_witness :
    demoQuestions.length = 5 ∧
    final_percentage (examScore demoQuestions demoSubmissions) =
      (examScore demoQuestions demoSubmissions : ℚ) / (demoQuestions.length : ℚ) * 100 ∧
    final_percentage (examScore demoQuestions demoSubmissions) = 80 :=
  ⟨rfl, (exam_scoring_amended demoQuestions demoSubmissions rfl).2.1,
    (exam_scoring_amended demoQuestions demoSubmissions rfl).2.2.2⟩

/-- C6 counterexample: a quiz of `N = 1` question whose single submission is
correct.  The claim's formula gives `1 / 1 * 100 = 100`, but the code
computes `(score / 5) * 100 = 20`: the divisor is the literal 5, not the
question count. -/
theorem final_percentage_hardcoded_five_cex :
    examScore [⟨"Q?", ["A) yes", "B) no"], "A"⟩] ["a"] = 1 ∧
    final_percentage (examScore [⟨"Q?", ["A) yes", "B) no"], "A"⟩] ["a"]) = 20 ∧
    ((1 : ℚ) / (([⟨"Q?", ["A) yes", "B) no"], "A"⟩] : List PyQuizQuestion).length : ℚ) * 100 = 100) ∧
    (20 : ℚ) ≠ 100 := by
  have h1 : examScore [⟨"Q?", ["A) yes", "B) no"], "A"⟩] ["a"] = 1 := rfl
  refine ⟨h1, ?_, by norm_num, by norm_num⟩
  rw [h1]
  norm_num [final_percentage]

/-- C9 counterexample: the exam loop presents and scores `invalidQuestion`
rather than rejecting it — submitting `z` even increments the score, because
judging only compares letters and never consults the options. -/
theorem exam_accepts_invalid_question_cex :
    claimValidQuestion invalidQuestion = false ∧
    examScore [invalidQuestion] ["z"] = 1 := ⟨rfl, rfl⟩

/-- C9 (amended): no validation step exists between parsing and the exam
loop — the score is computed over every parsed question by the letter
comparison alone, and prepending a question that violates all of the claimed
validation conditions still yields a presented, scored question. -/
theorem exam_runs_without_validation (qs : List PyQuizQuestion) (subs : List String) :
    examScore qs subs =
      ((qs.zip subs).countP fun p => decide (pyUpper p.2 = correct_letter p.1.answer)) ∧
    examScore (invalidQuestion :: qs) ("z" :: subs) = 1 + examScore qs subs := by
  exact ⟨examScore_eq_countP qs subs, rfl⟩

/-- A non-empty blank-line join is the empty string exactly for a single
empty content. -/
theorem pyJoin_blank_eq_empty_iff (x : String) (xs : List String) :
    pyJoin "\n\n" (x :: xs) = "" ↔ x :: xs = [""] := by
  cases xs with
  | nil => simp [pyJoin]
  | cons y rest =>
    simp only [pyJoin]
    constructor
    · intro h
      have hlen := congrArg String.length h
      rw [String.length_append, String.length_append] at hlen
      have h2 : ("\n\n" : String).length = 2 := rfl
      have h0 : ("" : String).length = 0 := rfl
      omega
    · intro h
      simp at h

/-- C4 counterexample: when the store returns one match whose `content` is
the empty string — a non-empty match set — `get_syllabus_context` returns
the empty string to its caller, violating "never returns an empty
string". -/
theorem retrieval_empty_content_cex :
    get_syllabus_context [""] = some "" ∧ ([""] : List String) ≠ [] :=
  ⟨rfl, by simp⟩

/-- C4 (amended): the retrieval helper returns `None` iff the store's match
set is empty, otherwise the blank-line join of the contents in store order —
and that join is the empty string exactly when the match set is the single
empty content. -/
theorem retrieval_none_iff_empty (ms : List String) :
    (get_syllabus_context ms = none ↔ ms = []) ∧
    (ms ≠ [] → get_syllabus_context ms = some (pyJoin "\n\n" ms)) ∧
    (get_syllabus_context ms = some "" ↔ ms = [""]) := by
  cases ms with
  | nil => simp [get_syllabus_context]
  | cons x xs =>
    refine ⟨by simp [get_syllabus_context], fun _ => by simp [get_syllabus_context], ?_⟩
    simpa [get_syllabus_context] using pyJoin_blank_eq_empty_iff x xs

/-- Witness for `retrieval_none_iff_empty`: two concrete non-empty matches. -/
theorem retrieval_none_iff_empty_witness :
    (["alpha", "beta"] : List String) ≠ [] ∧
    get_syllabus_context ["alpha", "beta"] = some "alpha\n\nbeta" :=
  ⟨by simp, by
    have h := (retrieval_none_iff_empty ["alpha", "beta"]).2.1 (by simp)
    simpa [pyJoin] using h⟩

/-- C7 counterexample: the HTTP grading endpoint (`/grade`, app.py line 191)
is an exam/grading retrieval call, yet it passes the tutoring defaults —
threshold 0.5 (not 0.4) and topK 4. -/
theorem grade_endpoint_uses_tutoring_params_cex :
    grade_image_call ∈ examGradingCalls ∧
    grade_image_call.threshold = 0.5 ∧
    grade_image_call.threshold ≠ 0.4 ∧
    grade_image_call = chat_tutor_call := by
  refine ⟨by simp [examGradingCalls], rfl, by norm_num [grade_image_call], rfl⟩

/-- C7 (amended): the tutoring retrieval calls all use threshold 0.5 with
topK 4; the quiz-generation calls and the standalone vision grader use
threshold 0.4 with topK between 3 and 5; the HTTP grading endpoint reuses
the tutoring defaults 0.5/4 instead of the exam/grading convention. -/
theorem retrieval_call_parameters :
    (∀ c ∈ tutoringCalls, c.threshold = 0.5 ∧ c.matchCount = 4) ∧
    (∀ c ∈ [generate_quiz_call, quizadded_start_quiz_call, vision_grader_call],
      c.threshold = 0.4 ∧ 3 ≤ c.matchCount ∧ c.matchCount ≤ 5) ∧
    grade_image_call = chat_tutor_call := by
  refine ⟨?_, ?_, rfl⟩
  · intro c hc
    simp only [tutoringCalls, List.mem_cons, List.not_mem_nil, or_false] at hc
    rcases hc with rfl | rfl | rfl <;> exact ⟨rfl, rfl⟩
  · intro c hc
    simp only [List.mem_cons, List.not_mem_nil, or_false] at hc
    rcases hc with rfl | rfl | rfl <;> exact ⟨rfl, by decide, by decide⟩

/-- Witness for `retrieval_call_parameters`: the `/chat` call site is a
tutoring call with threshold 0.5 and topK 4, and the quizadded quiz call is
an exam call with threshold 0.4 and topK 5. -/
theorem retrieval_call_parameters_witness :
    chat_tutor_call ∈ tutoringCalls ∧
    (chat_tutor_call.threshold = 0.5 ∧ chat_tutor_call.matchCount = 4) ∧
    (quizadded_start_quiz_call.threshold = 0.4 ∧
      3 ≤ quizadded_start_quiz_call.matchCount ∧ quizadded_start_quiz_call.matchCount ≤ 5) :=
  ⟨by simp [tutoringCalls],
    retrieval_call_parameters.1 chat_tutor_call (by simp [tutoringCalls]),
    retrieval_call_parameters.2.1 quizadded_start_quiz_call (by simp)⟩

/-- C3 counterexample: on bracket-free input the interactive extractor
raises the bracket-not-found `ValueError` without attempting the code-fence
fallback, even though that fallback would have succeeded — the chain the
claim describes (`claimed_extract`) returns the parsed value instead. -/
theorem start_quiz_extract_skips_fence_fallback_cex :
    start_quiz_extract fencedNumeral = .error (.noBrackets fencedNumeral) ∧
    jsonParse (stripFences fencedNumeral) = some (.num 42) ∧
    claimed_extract fencedNumeral = .ok (.num 42) := ⟨rfl, rfl, rfl⟩

/-- C3 (amended): when the first `[` and the last `]` are both present the
extractor follows the claimed chain exactly (slice, then fence-stripped
fallback, then failure); when either bracket is absent it fails immediately
with the bracket-not-found error, never reaching the fence fallback. -/
theorem start_quiz_extract_chain (raw : String) :
    (∀ si ei, pyFindChar raw '[' = some si → pyRfindChar raw ']' = some ei →
      start_quiz_extract raw = claimed_extract raw) ∧
    (pyFindChar raw '[' = none ∨ pyRfindChar raw ']' = none →
      start_quiz_extract raw = .error (.noBrackets raw)) := by
  constructor
  · intro si ei h1 h2
    simp [start_quiz_extract, claimed_extract, h1, h2]
  · intro h
    rcases h with h | h
    · rcases h3 : pyRfindChar raw ']' with _ | ei <;>
        simp [start_quiz_extract, h, h3]
    · rcases h3 : pyFindChar raw '[' with _ | si <;>
        simp [start_quiz_extract, h, h3]

/-- Witness for `start_quiz_extract_chain`: a bracketed input where code and
claimed chain agree, and the bracket-free `fencedNumeral` where the code
short-circuits to the bracket-not-found error. -/
theorem start_quiz_extract_chain_witness :
    start_quiz_extract "noise [1] tail" = claimed_extract "noise [1] tail" ∧
    start_quiz_extract fencedNumeral = .error (.noBrackets fencedNumeral) :=
  ⟨(start_quiz_extract_chain "noise [1] tail").1 6 8 rfl rfl,
    (start_quiz_extract_chain fencedNumeral).2 (Or.inl rfl)⟩

/-- `listStartsWith` recognises exactly the lists beginning with `pat`. -/
theorem listStartsWith_iff (pat s : List Char) :
    listStartsWith pat s = true ↔ ∃ r, s = pat ++ r := by
  induction pat generalizing s with
  | nil => simp [listStartsWith]
  | cons p ps ih =>
    cases s with
    | nil => simp [listStartsWith]
    | cons c cs =>
      simp only [listStartsWith, Bool.and_eq_true, decide_eq_true_eq, ih,
        List.cons_append, List.cons.injEq]
      constructor
      · rintro ⟨rfl, r, rfl⟩
        exact ⟨r, rfl, rfl⟩
      · rintro ⟨r, rfl, rfl⟩
        exact ⟨rfl, r, rfl⟩

/-- `listHasSub` recognises exactly the lists containing `pat` as a
contiguous sublist. -/
theorem listHasSub_iff (pat s : List Char) :
    listHasSub pat s = true ↔ ∃ l r, s = l ++ pat ++ r := by
  induction s with
  | nil =>
    simp only [listHasSub, decide_eq_true_eq]
    constructor
    · intro h
      exact ⟨[], [], by simp [h]⟩
    · rintro ⟨l, r, h⟩
      rcases List.append_eq_nil.mp (List.append_eq_nil.mp h.symm).1 with ⟨-, h2⟩
      exact h2
  | cons c cs ih =>
    simp only [listHasSub, Bool.or_eq_true, ih, listStartsWith_iff]
    constructor
    · rintro (⟨r, hr⟩ | ⟨l, r, rfl⟩)
      · exact ⟨[], r, by simpa using hr⟩
      · exact ⟨c :: l, r, rfl⟩
    · rintro ⟨l, r, h⟩
      cases l with
      | nil =>
        left
        exact ⟨r, by simpa using h⟩
      | cons d ds =>
        right
        simp only [List.cons_append, List.cons.injEq] at h
        exact ⟨ds, r, h.2⟩

/-- `strHasSub` decides substring containment. -/
theorem strHasSub_iff (s pat : String) :
    strHasSub s pat = true ↔ containsStr s pat :=
  listHasSub_iff pat.data s.data

/-- A string occurs in the middle of its own three-part concatenation. -/
theorem containsStr_middle (pre pat post : String) :
    containsStr (pre ++ pat ++ post) pat :=
  ⟨pre.data, post.data, by simp [String.data_append]⟩

/-- Interpolating a non-empty message is observably different from
interpolating the empty string. -/
theorem append_middle_ne_empty_slot (pre m post : String) (hm : m.length ≠ 0) :
    pre ++ m ++ post ≠ pre ++ "" ++ post := by
  intro he
  have hlen := congrArg String.length he
  rw [String.length_append, String.length_append, String.length_append,
    String.length_append] at hlen
  have h0 : ("" : String).length = 0 := rfl
  omega

/-- C8 counterexample: the quiz-generation prompt in quizadded.py with an
empty match set.  The assembled prompt is literally the one obtained by
interpolating the empty string into the context slot, and none of the
repository's no-context sentences occurs in it. -/
theorem quiz_prompt_empty_context_cex :
    start_quiz_json_prompt [] "pointers" =
      start_quiz_prompt_pre ++ "" ++ start_quiz_prompt_post "pointers" ∧
    ¬ containsStr (start_quiz_json_prompt [] "pointers") chat_tutor_no_context_msg ∧
    ¬ containsStr (start_quiz_json_prompt [] "pointers") backend_no_context_msg ∧
    ¬ containsStr (start_quiz_json_prompt [] "pointers") quizadded_tutor_no_context_msg := by
  refine ⟨rfl, ?_, ?_, ?_⟩ <;>
    · intro hcon
      exact absurd ((strHasSub_iff _ _).mpr hcon) (by decide)

/-- C8 (amended): the three tutoring prompts interpolate an explicit
no-context sentence whenever the retrieval step yields nothing (and that is
observably different from interpolating an empty string), but the
quiz-generation prompt of the interactive script interpolates the raw join,
which is the empty string when the match set is empty.  (The HTTP quiz and
grading flows return before any prompt is assembled when retrieval yields
nothing.) -/
theorem prompts_absent_context (q : String) :
    containsStr (chat_tutor_prompt none q) chat_tutor_no_context_msg ∧
    chat_tutor_prompt none q ≠ chat_tutor_pre ++ "" ++ chat_tutor_post q ∧
    containsStr (chat_tutor_prompt (some "") q) chat_tutor_no_context_msg ∧
    containsStr (backend_ask_tutor_prompt [] q) backend_no_context_msg ∧
    backend_ask_tutor_prompt [] q ≠ backend_ask_tutor_pre ++ "" ++ backend_ask_tutor_post q ∧
    containsStr (quizadded_ask_tutor_prompt [] q) quizadded_tutor_no_context_msg ∧
    quizadded_ask_tutor_prompt [] q ≠ quizadded_ask_tutor_pre ++ "" ++ quizadded_ask_tutor_post q ∧
    start_quiz_json_prompt [] q = start_quiz_prompt_pre ++ "" ++ start_quiz_prompt_post q := by
  refine ⟨containsStr_middle _ _ _,
    append_middle_ne_empty_slot _ _ _ (by decide),
    containsStr_middle _ _ _,
    containsStr_middle _ _ _,
    append_middle_ne_empty_slot _ _ _ (by decide),
    containsStr_middle _ _ _,
    append_middle_ne_empty_slot _ _ _ (by decide),
    rfl⟩

/-- One step of the ceiling-division recurrence `⌈n/step⌉ = ⌈(n-step)/step⌉ + 1`
for `0 < n`, with the ceiling written as `(n + step - 1) / step`. -/
theorem ceil_div_step (step n : Nat) (hstep : 0 < step) (hn : 0 < n) :
    (n + step - 1) / step = (n - step + step - 1) / step + 1 := by
  rcases le_or_lt step n with hge | hlt
  · have heq : n + step - 1 = (n - step + step - 1) + step := by omega
    rw [heq, Nat.add_div_right _ hstep]
  · have h1 : (n + step - 1) / step = 1 :=
      Nat.div_eq_of_lt_le (by omega) (by omega)
    have h2 : (n - step + step - 1) / step = 0 := Nat.div_eq_of_lt (by omega)
    omega

/-- `range(start, stop, step)` is the first `⌈(stop-start)/step⌉` multiples
of `step` shifted by `start`. -/
theorem pyRange_eq_range_map (step : Nat) (hstep : 0 < step) :
    ∀ fuel start stop, stop - start ≤ fuel →
      pyRange start stop step =
        (List.range ((stop - start + step - 1) / step)).map fun i => start + i * step := by
  intro fuel
  induction fuel with
  | zero =>
    intro s t hle
    rw [pyRange]
    have hns : ¬ (0 < step ∧ s < t) := by omega
    have hz : (t - s + step - 1) / step = 0 := Nat.div_eq_of_lt (by omega)
    rw [dif_neg hns, hz]
    simp
  | succ fuel ih =>
    intro s t hle
    rw [pyRange]
    by_cases hc : s < t
    · rw [dif_pos ⟨hstep, hc⟩, ih (s + step) t (by omega)]
      have hceil : (t - s + step - 1) / step = (t - (s + step) + step - 1) / step + 1 := by
        have h := ceil_div_step step (t - s) hstep (by omega)
        have heq : t - (s + step) = t - s - step := by omega
        rw [heq]
        exact h
      rw [hceil, List.range_succ_eq_map, List.map_cons, List.map_map]
      refine congrArg₂ List.cons (by omega) ?_
      refine List.map_congr_left ?_
      intro i _
      show s + step + i * step = s + (i + 1) * step
      ring
    · rw [dif_neg (by omega : ¬ (0 < step ∧ s < t))]
      have hz : (t - s + step - 1) / step = 0 := Nat.div_eq_of_lt (by omega)
      rw [hz]
      simp

/-- The upload loop's batches, in closed form. -/
theorem uploadBatches_eq (chunks : List α) (B : Nat) (hB : 0 < B) :
    uploadBatches chunks B =
      (List.range ((chunks.length + B - 1) / B)).map fun i =>
        (chunks.drop (i * B)).take B := by
  unfold uploadBatches
  rw [pyRange_eq_range_map B hB chunks.length 0 chunks.length (by omega)]
  rw [List.map_map]
  simp [Function.comp]

/-- C5: for batch size `B > 0` the upload loop issues exactly
`⌈L/B⌉ = (L + B - 1) / B` batch writes, each of size at most `B`, and the
i-th write is exactly the i-th contiguous slice
`chunks[i*B : i*B + B]` of the original sequence, in original order. -/
theorem upload_batching_partition (chunks : List α) (B : Nat) (hB : 0 < B) :
    (uploadBatches chunks B).length = (chunks.length + B - 1) / B ∧
    (∀ b ∈ uploadBatches chunks B, b.length ≤ B) ∧
    ∀ i < (chunks.length + B - 1) / B,
      (uploadBatches chunks B)[i]? = some ((chunks.drop (i * B)).take B) := by
  rw [uploadBatches_eq chunks B hB]
  refine ⟨by simp, ?_, ?_⟩
  · intro b hb
    rw [List.mem_map] at hb
    obtain ⟨i, -, rfl⟩ := hb
    exact List.length_take_le B _
  · intro i hi
    rw [List.getElem?_map, List.getElem?_range hi]
    rfl

/-- Witness for `upload_batching_partition`: five chunks with batch size 2
give three writes `[10,20]`, `[30,40]`, `[50]`. -/
theorem upload_batching_partition_witness :
    (0 : Nat) < 2 ∧
    (uploadBatches [10, 20, 30, 40, 50] 2).length = 3 ∧
    (∀ b ∈ uploadBatches [10, 20, 30, 40, 50] 2, b.length ≤ 2) ∧
    (uploadBatches [10, 20, 30, 40, 50] 2)[1]? = some [30, 40] := by
  have h := upload_batching_partition [10, 20, 30, 40, 50] 2 (by decide)
  refine ⟨by decide, by simpa using h.1, h.2.1, ?_⟩
  have h1 := h.2.2 1 (by decide)
  simpa using h1

end DigitalDean
